import Mathlib

/-!
A shallow embedding of the SOCKS4 interception library `src/socks.c`
(lucrocha/libsocks).

The library overrides the C library's `connect(2)`.  Its observable
behaviour consists of the chain of calls it makes to the outside world
(the real `connect`, `getsockopt`, `fcntl`, `send`, `recv`, `shutdown`)
and the final return value / `errno` / socket flag state.  We embed it as
a pure function from the call's arguments, the entry state (`errno`,
socket file-status flags) and an oracle environment describing the
behaviour of those external primitives, to an outcome record.

Conventions of the embedding:

* Machine integers are modelled as `Nat` (or `Int` where the C variable
  is a signed quantity whose sign is tested), with byte decompositions
  made explicit where the wire layout matters.
* The host is modelled as a little-endian Linux machine (the platform an
  `LD_PRELOAD` shim built around `_init`/`dlsym` targets).  In
  particular the numeric value of the `uint32_t` field
  `sin_addr.s_addr` — which holds the address bytes in network order —
  is the byte-reversed conceptual address; `ntohl_le` converts between
  the two.
* The `send`/`recv` loops consume a finite trace of primitive outcomes;
  a run that exhausts the trace before the loop finishes is modelled as
  `none` (the C loop would keep calling the primitive).
-/

namespace Socks

/-- errno code for an interrupted call (Linux `EINTR`). -/
def EINTR : Nat := 4

/-- errno code for a would-block condition (Linux `EAGAIN`). -/
def EAGAIN : Nat := 11

/-- errno code for a refused connection (Linux `ECONNREFUSED`), the
default error of the `error:` exit of `connect` (socks.c line 222). -/
def ECONNREFUSED : Nat := 111

/-- Address family `AF_INET` (IPv4). -/
def AF_INET : Nat := 2

/-- Socket type `SOCK_STREAM` (byte stream). -/
def SOCK_STREAM : Nat := 1

/-- Status byte of a granted SOCKS4 request (socks.c line 65). -/
def SOCKS4_REQUEST_GRANTED : Nat := 0x5a

/-- Byte-reversal of a 32-bit value: `ntohl` on a little-endian host
(used at socks.c line 164). -/
def ntohl_le (v : Nat) : Nat :=
  v % 256 * 16777216 + v / 256 % 256 * 65536 + v / 65536 % 256 * 256 +
    v / 16777216 % 256

/-- Byte-reversal of a 16-bit value: `ntohs` on a little-endian host.
The conceptual (host-order) port carried by a `sin_port` field. -/
def ntohs_le (p : Nat) : Nat :=
  p % 256 * 256 + p / 256 % 256

/-- Memory bytes, in address order, of a 16-bit value stored on a
little-endian host. -/
def bytes2_le (v : Nat) : List Nat :=
  [v % 256, v / 256 % 256]

/-- Memory bytes, in address order, of a 32-bit value stored on a
little-endian host. -/
def bytes4_le (v : Nat) : List Nat :=
  [v % 256, v / 256 % 256, v / 65536 % 256, v / 16777216 % 256]

/-- Big-endian byte string of a 16-bit value (how the spec describes the
port field of the wire request). -/
def be16 (p : Nat) : List Nat :=
  [p / 256 % 256, p % 256]

/-- Big-endian byte string of a 32-bit value (how the spec describes the
address field of the wire request). -/
def be32 (v : Nat) : List Nat :=
  [v / 16777216 % 256, v / 65536 % 256, v / 256 % 256, v % 256]

/-- Outcome of one call to the `send`/`recv` primitive, as observed by
the loops of socks.c lines 103–138: either a non-negative byte count
(`errno` unchanged) or a failure that sets `errno`. -/
inductive IoOutcome where
  | ok (n : Nat)
  | fail (e : Nat)
deriving Repr, DecidableEq

/-- The complete-write loop `do_complete_send` (socks.c lines 103–118),
run against a trace of `send` outcomes.  Arguments: the remaining trace,
the remaining length `len` (a C `int`), the current `errno`.  Returns
`some (ret, errno, rest)` when the C function returns, `none` when the
trace is exhausted while the loop still runs. -/
def do_complete_send : List IoOutcome → Int → Nat → Option (Int × Nat × List IoOutcome)
  | outs, len, e =>
    if len ≤ 0 then some (0, e, outs)
    else
      match outs with
      | [] => none
      | IoOutcome.ok n :: rest => do_complete_send rest (len - n) e
      | IoOutcome.fail err :: rest =>
        if err = EINTR ∨ err = EAGAIN then do_complete_send rest len err
        else some (-1, err, rest)

/-- The complete-read loop `do_complete_recv` (socks.c lines 120–138),
run against a trace of `recv` outcomes.  A zero-length read breaks out
of the loop; the C function then returns `len != 0` (1 when bytes are
still missing).  Returns `none` when the trace is exhausted while the
loop still runs. -/
def do_complete_recv : List IoOutcome → Int → Nat → Option (Int × Nat × List IoOutcome)
  | outs, len, e =>
    if len ≤ 0 then some (if len ≠ 0 then 1 else 0, e, outs)
    else
      match outs with
      | [] => none
      | IoOutcome.ok 0 :: rest => some (1, e, rest)
      | IoOutcome.ok (n + 1) :: rest => do_complete_recv rest (len - (n + 1)) e
      | IoOutcome.fail err :: rest =>
        if err = EINTR ∨ err = EAGAIN then do_complete_recv rest len err
        else some (-1, err, rest)

/-- The SOCKS v4 client request message (socks.c lines 42–48), a packed
struct.  The two multi-byte fields hold the `uint16_t`/`uint32_t` native
values assigned to them. -/
structure socks4_request where
  s4_version : Nat
  s4_command : Nat
  s4_port : Nat
  s4_addr : Nat
  s4_user : Nat
deriving Repr, DecidableEq

/-- The SOCKS v4 connect template (socks.c lines 51–55); fields not
named in the C initializer are zero. -/
def template : socks4_request :=
  { s4_version := 0x04, s4_command := 0x01, s4_port := 0, s4_addr := 0,
    s4_user := 0x00 }

/-- Memory bytes of the packed 9-byte request struct on a little-endian
host, in layout order — exactly the bytes handed to the send loop. -/
def serialize_socks4_request (m : socks4_request) : List Nat :=
  m.s4_version :: m.s4_command ::
    (bytes2_le m.s4_port ++ bytes4_le m.s4_addr ++ [m.s4_user])

/-- The caller-supplied `struct sockaddr_in`, as read by `connect`
(socks.c lines 152–159): the address family, the `uint16_t` `sin_port`
and the `uint32_t` `sin_addr.s_addr`, both holding network-byte-order
data and modelled by their native numeric value on the little-endian
host. -/
structure sockaddr_in where
  sin_family : Nat
  sin_port : Nat
  s_addr : Nat
deriving Repr, DecidableEq

/-- Outcome of one `real_connect` call against a candidate proxy
endpoint in the loop of socks.c lines 192–194: acceptance (`errno`
unchanged) or refusal with the `errno` the failing call sets. -/
inductive ConnAttempt where
  | accept
  | refuse (e : Nat)
deriving Repr, DecidableEq

/-- The candidate loop of socks.c lines 192–198: walk the endpoint list
until a `real_connect` returns zero.  Returns (connected?, resulting
errno, number of candidates attempted). -/
def tryServers : List ConnAttempt → Nat → Bool × Nat × Nat
  | [], e => (false, e, 0)
  | ConnAttempt.accept :: _, e => (true, e, 1)
  | ConnAttempt.refuse e' :: rest, _ =>
    match tryServers rest e' with
    | (b, e'', k) => (b, e'', k + 1)

/-- Outcome of a `getsockopt(s, SOL_SOCKET, ...)` query (socks.c lines
172, 180): failure (return -1) or success reporting a value and the
written option length. -/
inductive getsockopt_result where
  | fail (e : Nat)
  | ok (value : Nat) (optlen : Nat)
deriving Repr, DecidableEq

/-- Truth of the three-clause check applied to each `getsockopt` result
(socks.c lines 172–174 and 180–182): the call succeeded, wrote
`sizeof(int)` bytes, and reported the expected value. -/
def sockoptOk (g : getsockopt_result) (expected : Nat) : Bool :=
  match g with
  | getsockopt_result.fail _ => false
  | getsockopt_result.ok v l => l == 4 && v == expected

/-- The address-class exclusions of socks.c lines 161–165, applied to
the native value of `s_addr` on the little-endian host: `INADDR_ANY`,
`INADDR_BROADCAST`, `IN_MULTICAST` (note: the C macro is applied to the
network-byte-order value exactly as the source does), and loopback
(first octet 127, via `ntohl`). -/
def addrExcluded (ip : Nat) : Bool :=
  ip == 0 || ip == 0xffffffff ||
    Nat.land ip 0xf0000000 == 0xe0000000 ||
    ntohl_le ip >>> 24 == 127

/-- Oracle environment for one `connect` call: the resolved candidate
list (`socks_server`, with the outcome `real_connect` would produce on
each candidate), the two `getsockopt` answers, the `send`/`recv` outcome
traces, the status byte of the fully-received response, and the real
`connect` primitive used on the passthrough path (mapping the caller's
arguments and the entry errno to a return value and resulting errno). -/
structure ConnectEnv where
  socks_server : List ConnAttempt
  sotype : getsockopt_result
  sodomain : getsockopt_result
  sendOuts : List IoOutcome
  recvOuts : List IoOutcome
  respStatus : Nat
  real_connect : Int → Option sockaddr_in → Nat → Nat → Int × Nat

/-- Observable outcome of one intercepted `connect` call: return value,
final `errno`, final socket file-status flags, whether
`shutdown(s, SHUT_RDWR)` was called, how many candidate endpoints were
attempted, the byte string handed to the handshake send loop (if any),
and whether the call delegated to the real primitive. -/
structure ConnectOutcome where
  ret : Int
  errno : Nat
  flags : Nat
  didShutdown : Bool
  attempts : Nat
  sentMsg : Option (List Nat)
  passthrough : Bool
deriving Repr, DecidableEq

/-- Conjunction of all eligibility conditions of socks.c lines 144–183
(given a non-null address): non-empty candidate list, valid descriptor,
address length at least `sizeof(struct sockaddr)` = 16, IPv4 family, no
address-class exclusion, and the two socket-option checks. -/
def eligibleB (env : ConnectEnv) (s : Int) (sa : sockaddr_in) (len : Nat) : Bool :=
  !env.socks_server.isEmpty && decide (0 ≤ s) && decide (16 ≤ len) &&
    sa.sin_family == AF_INET && !addrExcluded sa.s_addr &&
    sockoptOk env.sotype SOCK_STREAM && sockoptOk env.sodomain AF_INET

/-- The `pass:` exit (socks.c lines 230–232): restore the entry errno
and delegate to the real primitive; nothing else is touched. -/
def passOutcome (env : ConnectEnv) (s : Int) (addr : Option sockaddr_in)
    (len : Nat) (errno0 flags0 : Nat) : ConnectOutcome :=
  { ret := (env.real_connect s addr len errno0).1,
    errno := (env.real_connect s addr len errno0).2,
    flags := flags0, didShutdown := false, attempts := 0,
    sentMsg := none, passthrough := true }

/-- The `error:` exit (socks.c lines 220–228): pick the current errno if
non-zero, else `ECONNREFUSED`; restore the captured flags; shut the
socket down in both directions; return -1 with that errno. -/
def errorOutcome (e flags0 : Nat) (attempts : Nat)
    (sent : Option (List Nat)) : ConnectOutcome :=
  { ret := -1, errno := if e ≠ 0 then e else ECONNREFUSED,
    flags := flags0, didShutdown := true, attempts := attempts,
    sentMsg := sent, passthrough := false }

/-- The request message built at socks.c lines 201–203: the template
with `s4_port` and `s4_addr` copied unchanged from the caller's
`sockaddr_in`, serialized to its 9 wire bytes. -/
def requestBytes (sa : sockaddr_in) : List Nat :=
  serialize_socks4_request
    { template with s4_port := sa.sin_port, s4_addr := sa.s_addr }

/-- The tunnel path of `connect` (socks.c lines 185–228): capture the
flags, try the candidates in order, send the handshake request, read the
8-byte response, gate on the status byte; every exit restores the
captured flags, and every failure exit goes through `errorOutcome`. -/
def tunnelRun (env : ConnectEnv) (sa : sockaddr_in) (errno0 flags0 : Nat) :
    Option ConnectOutcome :=
  match tryServers env.socks_server errno0 with
  | (false, e1, n) => some (errorOutcome e1 flags0 n none)
  | (true, e1, n) =>
    match do_complete_send env.sendOuts 9 e1 with
    | none => none
    | some (sret, e2, _) =>
      if sret ≠ 0 then some (errorOutcome e2 flags0 n (some (requestBytes sa)))
      else
        match do_complete_recv env.recvOuts 8 e2 with
        | none => none
        | some (rret, e3, _) =>
          if rret ≠ 0 then
            some (errorOutcome e3 flags0 n (some (requestBytes sa)))
          else if env.respStatus ≠ SOCKS4_REQUEST_GRANTED then
            some (errorOutcome e3 flags0 n (some (requestBytes sa)))
          else
            some { ret := 0, errno := e3, flags := flags0,
                   didShutdown := false, attempts := n,
                   sentMsg := some (requestBytes sa), passthrough := false }

/-- The intercepted `connect` (socks.c lines 140–233): a null address or
any failed eligibility condition takes the `pass:` exit; otherwise the
tunnel path runs.  `errno0` and `flags0` are the entry errno and the
socket's file-status flags. -/
def connect (env : ConnectEnv) (s : Int) (addr : Option sockaddr_in)
    (len : Nat) (errno0 flags0 : Nat) : Option ConnectOutcome :=
  match addr with
  | some sa =>
    if eligibleB env s sa len then tunnelRun env sa errno0 flags0
    else some (passOutcome env s (some sa) len errno0 flags0)
  | none => some (passOutcome env s none len errno0 flags0)

/-- A concrete benign environment: one accepting candidate, stream/IPv4
socket options, a one-shot full send and full read, granted status, and
a real primitive that succeeds preserving errno.  Used by concrete
instantiations below. -/
def envOk : ConnectEnv :=
  { socks_server := [ConnAttempt.accept],
    sotype := getsockopt_result.ok SOCK_STREAM 4,
    sodomain := getsockopt_result.ok AF_INET 4,
    sendOuts := [IoOutcome.ok 9],
    recvOuts := [IoOutcome.ok 8],
    respStatus := SOCKS4_REQUEST_GRANTED,
    real_connect := fun _ _ _ e => (0, e) }

/-- A concrete eligible target: 8.8.8.8 port 80 (native little-endian
field values). -/
def saOk : sockaddr_in :=
  { sin_family := 2, sin_port := 20480, s_addr := 134744072 }

/-- When every eligibility condition holds, the intercepted call runs
the tunnel path. -/
theorem connect_eligible_eq (env : ConnectEnv) (s : Int) (sa : sockaddr_in)
    (len : Nat) (errno0 flags0 : Nat) (he : eligibleB env s sa len = true) :
    Socks.connect env s (some sa) len errno0 flags0 =
      tunnelRun env sa errno0 flags0 := by
  simp [Socks.connect, he]

/-- C1: with an empty proxy endpoint list, the intercepted connect is
exactly the real primitive on the caller's arguments — same return
value, same resulting error code, entry errno passed through, no flag
change, no shutdown, no candidate attempt, no handshake. -/
theorem connect_empty_proxy_list_passthrough
    (env : ConnectEnv) (s : Int) (addr : Option sockaddr_in) (len : Nat)
    (errno0 flags0 : Nat) (h : env.socks_server = []) :
    Socks.connect env s addr len errno0 flags0 =
      some { ret := (env.real_connect s addr len errno0).1,
             errno := (env.real_connect s addr len errno0).2,
             flags := flags0, didShutdown := false, attempts := 0,
             sentMsg := none, passthrough := true } := by
  cases addr with
  | none => rfl
  | some sa =>
    have he : eligibleB env s sa len = false := by
      simp [eligibleB, h]
    simp [Socks.connect, he, passOutcome]

/-- Witness for `connect_empty_proxy_list_passthrough` at a concrete
input: empty candidate list, entry errno 5 preserved into the real
primitive, whose result is returned unchanged. -/
theorem connect_empty_proxy_list_passthrough_witness :
    ({ envOk with socks_server := [] } : ConnectEnv).socks_server =
      ([] : List ConnAttempt) ∧
    Socks.connect { envOk with socks_server := [] } 3 (some saOk) 16 5 7 =
      some { ret := 0, errno := 5, flags := 7, didShutdown := false,
             attempts := 0, sentMsg := none, passthrough := true } :=
  ⟨rfl, connect_empty_proxy_list_passthrough
    { envOk with socks_server := [] } 3 (some saOk) 16 5 7 rfl⟩

/-- C5: on every code path that returns, the socket's file-status flags
after the call equal their entry value. -/
theorem connect_flags_restored
    (env : ConnectEnv) (s : Int) (addr : Option sockaddr_in) (len : Nat)
    (errno0 flags0 : Nat) (r : ConnectOutcome)
    (h : Socks.connect env s addr len errno0 flags0 = some r) :
    r.flags = flags0 := by
  unfold Socks.connect tunnelRun at h
  repeat' split at h
  all_goals simp_all [errorOutcome, passOutcome]
  all_goals subst h; rfl

/-- Witness for `connect_flags_restored`: a full granted run at entry
flags 7 returns with flags 7. -/
theorem connect_flags_restored_witness :
    Socks.connect envOk 3 (some saOk) 16 0 7 =
      some { ret := 0, errno := 0, flags := 7, didShutdown := false,
             attempts := 1, sentMsg := some [4, 1, 0, 80, 8, 8, 8, 8, 0],
             passthrough := false } ∧
    ({ ret := 0, errno := 0, flags := 7, didShutdown := false,
       attempts := 1, sentMsg := some [4, 1, 0, 80, 8, 8, 8, 8, 0],
       passthrough := false } : ConnectOutcome).flags = 7 :=
  ⟨by decide, connect_flags_restored envOk 3 (some saOk) 16 0 7 _ (by decide)⟩

/-- C2 (bug evidence): the target 224.0.0.1 — whose conceptual
(host-order) value `ntohl_le 16777440` lies in the multicast class-D
range, as the first conjunct states via the `IN_MULTICAST` mask test on
the host-order value — is nevertheless tunneled: the intercepted call
does not pass through and sends a SOCKS4 handshake naming 224.0.0.1.
The source applies `IN_MULTICAST` to the network-byte-order value
(socks.c line 163), so on a little-endian host the test inspects the
wrong octet, contradicting the comment at line 158. -/
theorem connect_multicast_target_tunneled :
    Nat.land (ntohl_le 16777440) 0xf0000000 = 0xe0000000 ∧
    Socks.connect envOk 3
        (some { sin_family := 2, sin_port := 20480, s_addr := 16777440 })
        16 0 7 =
      some { ret := 0, errno := 0, flags := 7, didShutdown := false,
             attempts := 1, sentMsg := some [4, 1, 0, 80, 224, 0, 0, 1, 0],
             passthrough := false } :=
  ⟨by decide, by decide⟩

/-- C10: a successful tunneled connect does not restore errno — with
entry errno 0, an `EINTR`-retried send leaves errno = `EINTR` at the
successful return — while the passthrough path hands the entry errno 0
unchanged to the real primitive. -/
theorem connect_success_errno_not_restored :
    Socks.connect
        { envOk with sendOuts := [IoOutcome.fail EINTR, IoOutcome.ok 9] }
        3 (some saOk) 16 0 7 =
      some { ret := 0, errno := EINTR, flags := 7, didShutdown := false,
             attempts := 1, sentMsg := some [4, 1, 0, 80, 8, 8, 8, 8, 0],
             passthrough := false } ∧
    EINTR ≠ 0 ∧
    Socks.connect { envOk with socks_server := [] } 3 (some saOk) 16 0 7 =
      some { ret := 0, errno := 0, flags := 7, didShutdown := false,
             attempts := 0, sentMsg := none, passthrough := true } :=
  ⟨by decide, by decide, by decide⟩

/-- Every `error:` exit carries a non-zero errno: the recorded one, or
`ECONNREFUSED` when none was recorded. -/
theorem errorOutcome_errno_ne_zero (e f0 : Nat) (n : Nat)
    (m : Option (List Nat)) : (errorOutcome e f0 n m).errno ≠ 0 := by
  by_cases h : e = 0 <;> simp [errorOutcome, h, ECONNREFUSED]

/-- C3: once the transport connection and the full 8-byte response read
have completed, the call succeeds exactly when the status byte is
`0x5A`; any other status value makes it return -1 with a non-zero error
code and the socket shut down in both directions. -/
theorem connect_grant_status_gate
    (env : ConnectEnv) (s : Int) (sa : sockaddr_in) (len : Nat)
    (errno0 flags0 e1 e2 e3 : Nat) (n : Nat) (rs rr : List IoOutcome)
    (helig : eligibleB env s sa len = true)
    (htry : tryServers env.socks_server errno0 = (true, e1, n))
    (hsend : do_complete_send env.sendOuts 9 e1 = some (0, e2, rs))
    (hrecv : do_complete_recv env.recvOuts 8 e2 = some (0, e3, rr)) :
    (env.respStatus = SOCKS4_REQUEST_GRANTED →
      Socks.connect env s (some sa) len errno0 flags0 =
        some { ret := 0, errno := e3, flags := flags0, didShutdown := false,
               attempts := n, sentMsg := some (requestBytes sa),
               passthrough := false }) ∧
    (env.respStatus ≠ SOCKS4_REQUEST_GRANTED →
      Socks.connect env s (some sa) len errno0 flags0 =
        some (errorOutcome e3 flags0 n (some (requestBytes sa))) ∧
      (errorOutcome e3 flags0 n (some (requestBytes sa))).ret = -1 ∧
      (errorOutcome e3 flags0 n (some (requestBytes sa))).errno ≠ 0 ∧
      (errorOutcome e3 flags0 n (some (requestBytes sa))).didShutdown = true) := by
  rw [connect_eligible_eq env s sa len errno0 flags0 helig]
  unfold tunnelRun
  simp only [htry, hsend, hrecv]
  constructor
  · intro hst
    simp [hst]
  · intro hst
    exact ⟨by simp [hst], rfl, errorOutcome_errno_ne_zero e3 flags0 n _, rfl⟩

/-- Witness for `connect_grant_status_gate`: a denied status byte `0x5B`
yields the error outcome at a concrete input. -/
theorem connect_grant_status_gate_witness :
    Socks.connect { envOk with respStatus := 0x5b } 3 (some saOk) 16 0 7 =
      some (errorOutcome 0 7 1 (some (requestBytes saOk))) :=
  (((connect_grant_status_gate { envOk with respStatus := 0x5b } 3 saOk 16
      0 7 0 0 0 1 [] [] (by decide) (by decide) (by decide) (by decide)).2)
    (by decide)).1

/-- The little-endian memory bytes of a 16-bit field holding
network-byte-order data form the big-endian encoding of the conceptual
value. -/
theorem bytes2_le_eq_be16 (p : Nat) : bytes2_le p = be16 (ntohs_le p) := by
  simp only [bytes2_le, be16, ntohs_le, List.cons.injEq, and_true]
  have h0 : p % 256 < 256 := Nat.mod_lt _ (by norm_num)
  have h1 : p / 256 % 256 < 256 := Nat.mod_lt _ (by norm_num)
  generalize p % 256 = b0 at *
  generalize p / 256 % 256 = b1 at *
  omega

/-- The little-endian memory bytes of a 32-bit field holding
network-byte-order data form the big-endian encoding of the conceptual
value. -/
theorem bytes4_le_eq_be32 (v : Nat) : bytes4_le v = be32 (ntohl_le v) := by
  simp only [bytes4_le, be32, ntohl_le, List.cons.injEq, and_true]
  have h0 : v % 256 < 256 := Nat.mod_lt _ (by norm_num)
  have h1 : v / 256 % 256 < 256 := Nat.mod_lt _ (by norm_num)
  have h2 : v / 65536 % 256 < 256 := Nat.mod_lt _ (by norm_num)
  have h3 : v / 16777216 % 256 < 256 := Nat.mod_lt _ (by norm_num)
  generalize v % 256 = b0 at *
  generalize v / 256 % 256 = b1 at *
  generalize v / 65536 % 256 = b2 at *
  generalize v / 16777216 % 256 = b3 at *
  omega

/-- The serialized request equals the spec's wire picture:
`[0x04][0x01][port BE][ipv4 BE][0x00]` with the conceptual port and
address of the caller's `sockaddr_in`. -/
theorem requestBytes_eq_spec (sa : sockaddr_in) :
    requestBytes sa = 0x04 :: 0x01 ::
      (be16 (ntohs_le sa.sin_port) ++ be32 (ntohl_le sa.s_addr) ++ [0x00]) := by
  simp [requestBytes, serialize_socks4_request, template,
        bytes2_le_eq_be16, bytes4_le_eq_be32]

/-- C4: every run that reaches the handshake hands the send loop exactly
the 9 bytes `[0x04][0x01][port BE][ipv4 BE][0x00]`, port and address
taken unchanged from the caller's request. -/
theorem connect_request_wire_format
    (env : ConnectEnv) (s : Int) (sa : sockaddr_in) (len : Nat)
    (errno0 flags0 e1 : Nat) (n : Nat) (r : ConnectOutcome)
    (helig : eligibleB env s sa len = true)
    (htry : tryServers env.socks_server errno0 = (true, e1, n))
    (hr : Socks.connect env s (some sa) len errno0 flags0 = some r) :
    r.sentMsg = some (0x04 :: 0x01 ::
      (be16 (ntohs_le sa.sin_port) ++ be32 (ntohl_le sa.s_addr) ++ [0x00])) ∧
    (0x04 :: 0x01 ::
      (be16 (ntohs_le sa.sin_port) ++ be32 (ntohl_le sa.s_addr) ++
        [0x00])).length = 9 := by
  rw [connect_eligible_eq env s sa len errno0 flags0 helig] at hr
  unfold tunnelRun at hr
  simp only [htry] at hr
  refine ⟨?_, by simp [be16, be32]⟩
  rw [← requestBytes_eq_spec]
  repeat' split at hr
  all_goals first
    | (injection hr with hr; subst hr; rfl)
    | injection hr

/-- Witness for `connect_request_wire_format` on the concrete granted
run against 8.8.8.8:80. -/
theorem connect_request_wire_format_witness :
    ({ ret := 0, errno := 0, flags := 7, didShutdown := false,
       attempts := 1, sentMsg := some [4, 1, 0, 80, 8, 8, 8, 8, 0],
       passthrough := false } : ConnectOutcome).sentMsg =
      some (0x04 :: 0x01 ::
        (be16 (ntohs_le saOk.sin_port) ++ be32 (ntohl_le saOk.s_addr) ++
          [0x00])) :=
  (connect_request_wire_format envOk 3 saOk 16 0 7 0 1 _
    (by decide) (by decide) (by decide)).1

/-- C6: every failure exit of the tunnel path — exhausted candidate
list, send failure, failed or short read, or denial status — returns -1
with the errno recorded at the failing point if non-zero, otherwise
`ECONNREFUSED`. -/
theorem connect_failure_errno_policy
    (env : ConnectEnv) (s : Int) (sa : sockaddr_in) (len : Nat)
    (errno0 flags0 e1 e2 e3 : Nat) (n : Nat) (rs rr : List IoOutcome)
    (rret : Int) (helig : eligibleB env s sa len = true) :
    (tryServers env.socks_server errno0 = (false, e1, n) →
      Socks.connect env s (some sa) len errno0 flags0 =
        some (errorOutcome e1 flags0 n none) ∧
      (errorOutcome e1 flags0 n none).ret = -1 ∧
      (errorOutcome e1 flags0 n none).errno =
        (if e1 ≠ 0 then e1 else ECONNREFUSED)) ∧
    (tryServers env.socks_server errno0 = (true, e1, n) →
      do_complete_send env.sendOuts 9 e1 = some (-1, e2, rs) →
      Socks.connect env s (some sa) len errno0 flags0 =
        some (errorOutcome e2 flags0 n (some (requestBytes sa))) ∧
      (errorOutcome e2 flags0 n (some (requestBytes sa))).ret = -1 ∧
      (errorOutcome e2 flags0 n (some (requestBytes sa))).errno =
        (if e2 ≠ 0 then e2 else ECONNREFUSED)) ∧
    (tryServers env.socks_server errno0 = (true, e1, n) →
      do_complete_send env.sendOuts 9 e1 = some (0, e2, rs) →
      do_complete_recv env.recvOuts 8 e2 = some (rret, e3, rr) → rret ≠ 0 →
      Socks.connect env s (some sa) len errno0 flags0 =
        some (errorOutcome e3 flags0 n (some (requestBytes sa))) ∧
      (errorOutcome e3 flags0 n (some (requestBytes sa))).ret = -1 ∧
      (errorOutcome e3 flags0 n (some (requestBytes sa))).errno =
        (if e3 ≠ 0 then e3 else ECONNREFUSED)) ∧
    (tryServers env.socks_server errno0 = (true, e1, n) →
      do_complete_send env.sendOuts 9 e1 = some (0, e2, rs) →
      do_complete_recv env.recvOuts 8 e2 = some (0, e3, rr) →
      env.respStatus ≠ SOCKS4_REQUEST_GRANTED →
      Socks.connect env s (some sa) len errno0 flags0 =
        some (errorOutcome e3 flags0 n (some (requestBytes sa))) ∧
      (errorOutcome e3 flags0 n (some (requestBytes sa))).ret = -1 ∧
      (errorOutcome e3 flags0 n (some (requestBytes sa))).errno =
        (if e3 ≠ 0 then e3 else ECONNREFUSED)) := by
  rw [connect_eligible_eq env s sa len errno0 flags0 helig]
  refine ⟨fun htry => ?_, fun htry hsend => ?_,
          fun htry hsend hrecv hrret => ?_, fun htry hsend hrecv hst => ?_⟩
  · exact ⟨by unfold tunnelRun; simp only [htry], rfl, rfl⟩
  · exact ⟨by unfold tunnelRun; simp only [htry, hsend]; simp, rfl, rfl⟩
  · refine ⟨?_, rfl, rfl⟩
    unfold tunnelRun
    simp only [htry, hsend, hrecv]
    simp [hrret]
  · refine ⟨?_, rfl, rfl⟩
    unfold tunnelRun
    simp only [htry, hsend, hrecv]
    simp [hst]

/-- Witness for `connect_failure_errno_policy`: one refusing candidate
that sets errno 110 yields the error exit with errno 110. -/
theorem connect_failure_errno_policy_witness :
    Socks.connect { envOk with socks_server := [ConnAttempt.refuse 110] }
        3 (some saOk) 16 0 7 = some (errorOutcome 110 7 1 none) ∧
    (errorOutcome 110 7 1 none).ret = -1 ∧
    (errorOutcome 110 7 1 none).errno =
      (if (110 : Nat) ≠ 0 then 110 else ECONNREFUSED) :=
  (connect_failure_errno_policy
    { envOk with socks_server := [ConnAttempt.refuse 110] } 3 saOk 16
    0 7 110 0 0 1 [] [] 1 (by decide)).1 (by decide)

/-- Total byte count of a list of chunk sizes. -/
def sumNat : List Nat → Nat
  | [] => 0
  | a :: as => a + sumNat as

/-- Reading positive chunks totalling less than the remaining length
just advances the cursor: the read loop continues on the rest of the
trace with the remaining length reduced by the bytes received, errno
untouched. -/
theorem do_complete_recv_skip_ok (ns : List Nat) (l : List IoOutcome)
    (len : Int) (e : Nat) (hpos : ∀ m ∈ ns, 0 < m)
    (hlt : ((sumNat ns : Nat) : Int) < len) :
    do_complete_recv (ns.map IoOutcome.ok ++ l) len e =
      do_complete_recv l (len - ((sumNat ns : Nat) : Int)) e := by
  induction ns generalizing len with
  | nil => simp [sumNat]
  | cons a as ih =>
    have ha : 0 < a := hpos a (List.mem_cons_self a as)
    obtain ⟨m, rfl⟩ : ∃ m, a = m + 1 := ⟨a - 1, by omega⟩
    have hc : ((sumNat ((m + 1) :: as) : Nat) : Int) =
        ((m : Int) + 1) + ((sumNat as : Nat) : Int) := by
      simp only [sumNat]
      rw [Nat.cast_add, Nat.cast_add, Nat.cast_one]
    have hnle : ¬ len ≤ 0 := by omega
    rw [List.map_cons, List.cons_append]
    conv_lhs => rw [do_complete_recv]
    simp only [if_neg hnle]
    rw [ih (len - ((m : Int) + 1))
          (fun x hx => hpos x (List.mem_cons_of_mem _ hx)) (by omega)]
    have heq : len - ((m : Int) + 1) - ((sumNat as : Nat) : Int) =
        len - ((sumNat ((m + 1) :: as) : Nat) : Int) := by omega
    rw [heq]

/-- C7: if, after a completed send, the peer delivers positive chunks
totalling fewer than the 8 required response bytes and then closes
(zero-length read), the read loop reports failure (returns 1), and the
call returns -1 with a deterministic non-zero errno and the socket shut
down in both directions. -/
theorem connect_premature_close_fails
    (env : ConnectEnv) (s : Int) (sa : sockaddr_in) (len : Nat)
    (errno0 flags0 e1 e2 : Nat) (n : Nat) (rs : List IoOutcome)
    (ns : List Nat) (rest : List IoOutcome)
    (helig : eligibleB env s sa len = true)
    (htry : tryServers env.socks_server errno0 = (true, e1, n))
    (hsend : do_complete_send env.sendOuts 9 e1 = some (0, e2, rs))
    (houts : env.recvOuts = ns.map IoOutcome.ok ++ IoOutcome.ok 0 :: rest)
    (hpos : ∀ m ∈ ns, 0 < m) (hsum : sumNat ns < 8) :
    do_complete_recv env.recvOuts 8 e2 = some (1, e2, rest) ∧
    Socks.connect env s (some sa) len errno0 flags0 =
      some (errorOutcome e2 flags0 n (some (requestBytes sa))) ∧
    (errorOutcome e2 flags0 n (some (requestBytes sa))).ret = -1 ∧
    (errorOutcome e2 flags0 n (some (requestBytes sa))).errno =
      (if e2 ≠ 0 then e2 else ECONNREFUSED) ∧
    (errorOutcome e2 flags0 n (some (requestBytes sa))).errno ≠ 0 ∧
    (errorOutcome e2 flags0 n (some (requestBytes sa))).didShutdown = true := by
  have hrecv : do_complete_recv env.recvOuts 8 e2 = some (1, e2, rest) := by
    rw [houts,
        do_complete_recv_skip_ok ns _ 8 e2 hpos (by omega)]
    have hnle : ¬ ((8:Int) - ((sumNat ns : Nat) : Int)) ≤ 0 := by omega
    conv_lhs => rw [do_complete_recv]
    simp [hnle]
  refine ⟨hrecv, ?_, rfl, rfl, errorOutcome_errno_ne_zero _ _ _ _, rfl⟩
  rw [connect_eligible_eq env s sa len errno0 flags0 helig]
  unfold tunnelRun
  simp only [htry, hsend, hrecv]
  simp

/-- Witness for `connect_premature_close_fails`: the peer sends 3 of
the 8 response bytes and closes; the call fails with `ECONNREFUSED`
(no errno recorded earlier in this run) and shuts the socket down. -/
theorem connect_premature_close_fails_witness :
    do_complete_recv
        ({ envOk with recvOuts := [IoOutcome.ok 3, IoOutcome.ok 0]
         } : ConnectEnv).recvOuts 8 0 = some (1, 0, []) ∧
    Socks.connect { envOk with recvOuts := [IoOutcome.ok 3, IoOutcome.ok 0] }
        3 (some saOk) 16 0 7 =
      some (errorOutcome 0 7 1 (some (requestBytes saOk))) ∧
    (errorOutcome 0 7 1 (some (requestBytes saOk))).ret = -1 ∧
    (errorOutcome 0 7 1 (some (requestBytes saOk))).errno =
      (if (0:Nat) ≠ 0 then 0 else ECONNREFUSED) ∧
    (errorOutcome 0 7 1 (some (requestBytes saOk))).errno ≠ 0 ∧
    (errorOutcome 0 7 1 (some (requestBytes saOk))).didShutdown = true :=
  connect_premature_close_fails
    { envOk with recvOuts := [IoOutcome.ok 3, IoOutcome.ok 0] }
    3 saOk 16 0 7 0 0 1 [] [3] [] (by decide) (by decide) (by decide)
    (by decide) (by decide) (by decide)

/-- The errno set by the last refusal of a refusal block, or the given
default when the block is empty. -/
def lastErr : List Nat → Nat → Nat
  | [], d => d
  | a :: as, _ => lastErr as a

/-- Walking a block of refusals advances the candidate loop past all of
them, the errno becoming the one set by the last refusal. -/
theorem tryServers_refuse_append (es : List Nat) (l : List ConnAttempt)
    (e0 : Nat) :
    tryServers (es.map ConnAttempt.refuse ++ l) e0 =
      ((tryServers l (lastErr es e0)).1,
        (tryServers l (lastErr es e0)).2.1,
        (tryServers l (lastErr es e0)).2.2 + es.length) := by
  induction es generalizing e0 with
  | nil => simp [lastErr]
  | cons a as ih =>
    rw [List.map_cons, List.cons_append]
    conv_lhs => rw [tryServers]
    rw [ih a]
    simp [lastErr, Nat.add_assoc]

/-- C8: the transport establisher walks the candidate list strictly in
order.  With any block of refusals followed by an acceptance it stops
exactly at the first acceptance (attempt count = position + 1, later
candidates untouched); with a list of N refusals it reports failure
after exactly N attempts; and at the `connect` level an exhausted list
produces the -1 error exit with no handshake bytes ever built. -/
theorem connect_candidates_in_order
    (es : List Nat) (rest : List ConnAttempt) (e0 : Nat)
    (env : ConnectEnv) (s : Int) (sa : sockaddr_in) (len : Nat)
    (flags0 : Nat) (_hne : es ≠ [])
    (helig : eligibleB env s sa len = true)
    (hsrv : env.socks_server = es.map ConnAttempt.refuse) :
    tryServers (es.map ConnAttempt.refuse ++ ConnAttempt.accept :: rest) e0 =
      (true, lastErr es e0, es.length + 1) ∧
    tryServers (es.map ConnAttempt.refuse) e0 =
      (false, lastErr es e0, es.length) ∧
    Socks.connect env s (some sa) len e0 flags0 =
      some (errorOutcome (lastErr es e0) flags0 es.length none) ∧
    (errorOutcome (lastErr es e0) flags0 es.length none).ret = -1 ∧
    (errorOutcome (lastErr es e0) flags0 es.length none).sentMsg = none := by
  have h2 : tryServers (es.map ConnAttempt.refuse) e0 =
      (false, lastErr es e0, es.length) := by
    have h := tryServers_refuse_append es [] e0
    simpa [tryServers] using h
  refine ⟨?_, h2, ?_, rfl, rfl⟩
  · rw [tryServers_refuse_append]
    simp [tryServers, Nat.add_comm]
  · rw [connect_eligible_eq env s sa len e0 flags0 helig]
    unfold tunnelRun
    rw [hsrv, h2]

/-- Witness for `connect_candidates_in_order` with N = 2: both
candidates refuse (errnos 110 then 111), the loop makes exactly 2
attempts, and the call fails without building a handshake. -/
theorem connect_candidates_in_order_witness :
    tryServers
        ([110, 111].map ConnAttempt.refuse ++ ConnAttempt.accept :: []) 0 =
      (true, lastErr [110, 111] 0, [110, 111].length + 1) ∧
    tryServers ([110, 111].map ConnAttempt.refuse) 0 =
      (false, lastErr [110, 111] 0, [110, 111].length) ∧
    Socks.connect
        { envOk with socks_server := [110, 111].map ConnAttempt.refuse }
        3 (some saOk) 16 0 7 =
      some (errorOutcome (lastErr [110, 111] 0) 7 [110, 111].length none) ∧
    (errorOutcome (lastErr [110, 111] 0) 7 [110, 111].length none).ret = -1 ∧
    (errorOutcome (lastErr [110, 111] 0) 7 [110, 111].length
        none).sentMsg = none :=
  connect_candidates_in_order [110, 111] [] 0
    { envOk with socks_server := [110, 111].map ConnAttempt.refuse }
    3 saOk 16 7 (by decide) (by decide) rfl

/-- C9 counterexample: a zero-byte `send` success is neither an
interrupted nor a would-block condition and makes no progress, yet the
send loop runs another iteration rather than aborting or terminating:
with the trace `[ok 0]` the loop is still demanding outcomes (`none`),
and with `[ok 0, ok 9]` it consumed a second outcome after the
non-transient zero-progress first one. -/
theorem do_complete_send_zero_progress_cex :
    do_complete_send [IoOutcome.ok 0] 9 0 = none ∧
    do_complete_send [IoOutcome.ok 0, IoOutcome.ok 9] 9 0 =
      some (0, 0, []) :=
  ⟨by decide, by decide⟩

/-- C9 as amended: one iteration of each loop advances the cursor by
exactly the bytes transferred on a positive transfer, retries without
progress exactly on the transient errnos `EINTR`/`EAGAIN` — and, in the
send loop only, also on a zero-byte transfer — aborts with -1 on any
other failure, and (read loop) terminates with failure on a zero-length
read. -/
theorem loops_step_characterization
    (outs : List IoOutcome) (len : Int) (e n err : Nat) (hlen : 0 < len) :
    (do_complete_send (IoOutcome.ok n :: outs) len e =
      do_complete_send outs (len - n) e) ∧
    (err = EINTR ∨ err = EAGAIN →
      do_complete_send (IoOutcome.fail err :: outs) len e =
        do_complete_send outs len err) ∧
    (err ≠ EINTR → err ≠ EAGAIN →
      do_complete_send (IoOutcome.fail err :: outs) len e =
        some (-1, err, outs)) ∧
    (do_complete_recv (IoOutcome.ok (n + 1) :: outs) len e =
      do_complete_recv outs (len - (n + 1)) e) ∧
    (do_complete_recv (IoOutcome.ok 0 :: outs) len e = some (1, e, outs)) ∧
    (err = EINTR ∨ err = EAGAIN →
      do_complete_recv (IoOutcome.fail err :: outs) len e =
        do_complete_recv outs len err) ∧
    (err ≠ EINTR → err ≠ EAGAIN →
      do_complete_recv (IoOutcome.fail err :: outs) len e =
        some (-1, err, outs)) ∧
    (do_complete_send (IoOutcome.ok 0 :: outs) len e =
      do_complete_send outs len e) := by
  have hnle : ¬ len ≤ 0 := not_le.mpr hlen
  refine ⟨?_, fun h => ?_, fun h1 h2 => ?_, ?_, ?_, fun h => ?_,
    fun h1 h2 => ?_, ?_⟩
  · conv_lhs => rw [do_complete_send]
    simp [hnle]
  · conv_lhs => rw [do_complete_send]
    simp [hnle, h]
  · conv_lhs => rw [do_complete_send]
    simp [hnle, h1, h2]
  · conv_lhs => rw [do_complete_recv]
    simp [hnle]
  · conv_lhs => rw [do_complete_recv]
    simp [hnle]
  · conv_lhs => rw [do_complete_recv]
    simp [hnle, h]
  · conv_lhs => rw [do_complete_recv]
    simp [hnle, h1, h2]
  · conv_lhs => rw [do_complete_send]
    simp [hnle]

/-- Witness for `loops_step_characterization`: a 2-byte transfer
against remaining length 9 advances the cursor to 7. -/
theorem loops_step_characterization_witness :
    do_complete_send (IoOutcome.ok 2 :: []) 9 0 =
      do_complete_send [] ((9 : Int) - ((2 : Nat) : Int)) 0 :=
  (loops_step_characterization [] 9 0 2 104 (by decide)).1

end Socks
